import Mathlib

/-!
Shallow embedding of the core of the `Marketing_campaign` repository
(campaign orchestrator, A/B testing agent, SendGrid batch sender) used to
check the natural-language specification against the code.

Python dictionaries are modelled as insertion-ordered association lists
(`List (String × α)`), matching CPython's dict iteration order, which the
source relies on (e.g. `get_winner` iterates `metrics.items()`).
Python ints are modelled as `Int` (or `Nat` where the source only ever
increments from 0), Python floats as `Rat`.
-/

namespace Campaign

/-- `m[k]` lookup for an insertion-ordered dict (`None` when absent). -/
def dget {α : Type} (m : List (String × α)) (k : String) : Option α :=
  match m with
  | [] => none
  | (k', v) :: t => if k' = k then some v else dget t k

/-- `m.get(k, d)` on a Python dict. -/
def dgetD {α : Type} (m : List (String × α)) (k : String) (d : α) : α :=
  (dget m k).getD d

/-- `m[k] = v` on a Python dict: overwrite in place if the key exists
(keeping its position), otherwise append at the end. -/
def dset {α : Type} (m : List (String × α)) (k : String) (v : α) : List (String × α) :=
  match m with
  | [] => [(k, v)]
  | (k', v') :: t => if k' = k then (k', v) :: t else (k', v') :: dset t k v

/-- In-place update of an existing key (`m[k] = f(m[k])`); identity when absent. -/
def dmodify {α : Type} (m : List (String × α)) (k : String) (f : α → α) : List (String × α) :=
  match m with
  | [] => []
  | (k', v') :: t => if k' = k then (k', f v') :: t else (k', v') :: dmodify t k f

/-- `list(m.keys())`. -/
def dkeys {α : Type} (m : List (String × α)) : List String :=
  m.map Prod.fst

/-- Python `a or b` on strings (`""` is falsy; a missing dict value is
modelled as `""`, which Python's `or` treats the same as `None`). -/
def orStr (a b : String) : String :=
  if a = "" then b else a

/-- Normalization of one bound of a Python slice `l[a:b]` against a list of
length `len`: negative indices count from the end, then the bound is clamped
into `[0, len]`. -/
def pyIndex (len : Nat) (i : Int) : Nat :=
  if i < 0 then (max 0 ((len : Int) + i)).toNat else min i.toNat len

/-- Python slice `l[a:b]`. -/
def pySlice {α : Type} (l : List α) (a b : Int) : List α :=
  (l.take (pyIndex l.length b)).drop (pyIndex l.length a)

/-- Python slice `l[a:]`. -/
def pySliceFrom {α : Type} (l : List α) (a : Int) : List α :=
  l.drop (pyIndex l.length a)

/-- Round-half-to-even of a rational, the rounding rule of Python's
`round` (the source's float arithmetic is modelled exactly over `Rat`). -/
def roundHalfEven (x : Rat) : Int :=
  let f : Int := ⌊x⌋
  let r : Rat := x - (f : Rat)
  if r < 1/2 then f
  else if 1/2 < r then f + 1
  else if f % 2 = 0 then f else f + 1

/-- Python `round(x, 2)`. -/
def pyRound2 (x : Rat) : Rat :=
  ((roundHalfEven (x * 100) : Int) : Rat) / 100

/-! ## ABTestingAgent (src/agents/ab_testing_agent.py)

`self.test_results[campaign_id]["variants"]` for one fixed campaign is
modelled as an association list `Variants` from variant label to its
per-variant record (the `campaign_id` indirection and the `start_time`
bookkeeping field carry no information used by any claim and are elided;
`record_event` and friends always operate on one campaign's `variants`
dict). -/

/-- One entry of `test_results[cid]["variants"]`: the `metrics` sub-dict
written by `track_metric` plus the four event counters. -/
structure VariantData where
  metrics : List (String × Rat)
  sent : Int
  opened : Int
  clicked : Int
  converted : Int
deriving DecidableEq, Repr

/-- The fresh per-variant record created on first touch:
`{"metrics": {}, "sent": 0, "opened": 0, "clicked": 0, "converted": 0}`. -/
def newVariantData : VariantData :=
  { metrics := [], sent := 0, opened := 0, clicked := 0, converted := 0 }

/-- One campaign's `variants` dict. -/
abbrev Variants := List (String × VariantData)

/-- The `if variant not in ...: ... = {...}` initialisation in
`record_event`/`track_metric`. -/
def ensureVariant (m : Variants) (v : String) : Variants :=
  match dget m v with
  | some _ => m
  | none => m ++ [(v, newVariantData)]

/-- `self.test_results[cid]["variants"][variant][event] += count`, guarded by
`if event in self.test_results[cid]["variants"][variant]`.  The record's keys
are `metrics, sent, opened, clicked, converted`; events that are not counter
names (e.g. `"bounced"`, recorded by the orchestrator) fall through the guard
and leave the record unchanged.  (Callers only ever pass counter names or
`"bounced"`; `event = "metrics"` would be a `TypeError` in the source and is
outside the modelled domain.) -/
def applyEvent (d : VariantData) (event : String) (count : Int) : VariantData :=
  if event = "sent" then { d with sent := d.sent + count }
  else if event = "opened" then { d with opened := d.opened + count }
  else if event = "clicked" then { d with clicked := d.clicked + count }
  else if event = "converted" then { d with converted := d.converted + count }
  else d

/-- `ABTestingAgent.record_event` for one campaign: ensure the variant's
record exists, then add `count` onto the named counter. -/
def record_event (m : Variants) (variant : String) (event : String) (count : Int) : Variants :=
  dmodify (ensureVariant m variant) variant (fun d => applyEvent d event count)

/-- One entry of the `calculate_metrics` result. -/
structure MetricsResult where
  sent : Int
  opened : Int
  clicked : Int
  converted : Int
  open_rate : Rat
  click_rate : Rat
  conversion_rate : Rat
  click_through_rate : Rat
deriving DecidableEq, Repr

/-- The per-variant body of `ABTestingAgent.calculate_metrics`. -/
def variantMetrics (d : VariantData) : MetricsResult :=
  let sent := d.sent
  let opened := d.opened
  let clicked := d.clicked
  let converted := d.converted
  let open_rate : Rat := if 0 < sent then (opened : Rat) / (sent : Rat) * 100 else 0
  let click_rate : Rat := if 0 < sent then (clicked : Rat) / (sent : Rat) * 100 else 0
  let conversion_rate : Rat := if 0 < sent then (converted : Rat) / (sent : Rat) * 100 else 0
  let ctr : Rat := if 0 < opened then (clicked : Rat) / (opened : Rat) * 100 else 0
  { sent := sent, opened := opened, clicked := clicked, converted := converted
    open_rate := pyRound2 open_rate
    click_rate := pyRound2 click_rate
    conversion_rate := pyRound2 conversion_rate
    click_through_rate := pyRound2 ctr }

/-- `ABTestingAgent.calculate_metrics` for one campaign (the
`"Campaign not found"` error path concerns an absent campaign id and is
outside the single-campaign model). -/
def calculate_metrics (m : Variants) : List (String × MetricsResult) :=
  m.map (fun p => (p.1, variantMetrics p.2))

/-- `data.get(primary_metric, 0)` on a `calculate_metrics` entry. -/
def metricGet (r : MetricsResult) (metric : String) : Rat :=
  if metric = "sent" then (r.sent : Rat)
  else if metric = "opened" then (r.opened : Rat)
  else if metric = "clicked" then (r.clicked : Rat)
  else if metric = "converted" then (r.converted : Rat)
  else if metric = "open_rate" then r.open_rate
  else if metric = "click_rate" then r.click_rate
  else if metric = "conversion_rate" then r.conversion_rate
  else if metric = "click_through_rate" then r.click_through_rate
  else 0

/-- One step of `get_winner`'s loop: `if score > best_score: best_score =
score; winner = variant`. -/
def winnerStep (primary : String) (acc : Option String × Rat) (p : String × MetricsResult) :
    Option String × Rat :=
  if acc.2 < metricGet p.2 primary then (some p.1, metricGet p.2 primary) else acc

/-- `ABTestingAgent.get_winner`: iterate the calculated metrics in dict
(insertion) order starting from `winner = None, best_score = -1`. -/
def get_winner (m : Variants) (primary : String) : Option String :=
  ((calculate_metrics m).foldl (winnerStep primary) (none, -1)).1

/-- `variant_labels = ["A", "B", "C"]`. -/
def variantLabels : List String := ["A", "B", "C"]

/-- Loop body of `ABTestingAgent.create_test_groups` after
`num_variants = min(num_variants, 3)` has been applied and
`group_size = len(recipients) // num_variants` computed (Python `//` is
floor division, `Int.fdiv`).  `recipients` is the list *after*
`random.shuffle`. -/
def create_test_groups_run {α : Type} (recipients : List α) (numVariants : Int) :
    List (String × List α) :=
  let n := min numVariants 3
  let groupSize : Int := Int.fdiv (recipients.length : Int) n
  let labels := pySlice variantLabels 0 n
  labels.enum.map (fun p =>
    let startIdx : Int := (p.1 : Int) * groupSize
    if (p.1 : Int) = (labels.length : Int) - 1 then (p.2, pySliceFrom recipients startIdx)
    else (p.2, pySlice recipients startIdx (startIdx + groupSize)))

/-- `ABTestingAgent.create_test_groups`: `none` models the
`ZeroDivisionError` raised by `len(recipients) // num_variants` when
`min(num_variants, 3) == 0`. -/
def create_test_groups {α : Type} (recipients : List α) (numVariants : Int) :
    Option (List (String × List α)) :=
  if min numVariants 3 = 0 then none
  else some (create_test_groups_run recipients numVariants)

/-! ## SendGridSender (src/utils/sendgrid_sender.py)

`SendGridSender.send_email` never raises (it catches every exception and
returns a result dict); its outcome for the `i`-th send attempt of a batch
is supplied by an oracle `Nat → SendResult` standing for the external
SendGrid API.  `variant` and `campaign_id` only feed tracking custom-args
and do not influence any outcome, so they are not parameters of the model. -/

/-- A recipient dict: `recipient.get("email", "")` / `.get("name", "Customer")`
— a missing key is modelled as `""` (resp. the default). -/
structure Recipient where
  email : String
  name : String
deriving DecidableEq, Repr

/-- The result dict of one `send_email` call: `success`, optional
`message_id`, `status_code`, and `error` (absent on success). -/
structure SendResult where
  success : Bool
  message_id : String
  status_code : Int
  error : Option String
deriving DecidableEq, Repr

/-- One entry of `results["per_recipient"]`. -/
structure PerRecipientOutcome where
  email : String
  success : Bool
  message_id : String
  status_code : Int
  error : Option String
deriving DecidableEq, Repr

/-- The `results` dict accumulated by `send_batch`.  An `errors` entry is
`(some email, msg)`, or `(none, msg)` for the entry written without an
`email` key. -/
structure BatchResults where
  total : Nat
  sent : Nat
  failed : Nat
  message_ids : List (String × String)
  errors : List (Option String × String)
  per_recipient : List PerRecipientOutcome
deriving DecidableEq, Repr

/-- The `for i, recipient in enumerate(recipients)` loop of `send_batch`:
skip (and count as failed) recipients without an email address; otherwise
call `send_email`, append the per-recipient outcome, and update the
success/failure counters. -/
def sendLoop (oracle : Nat → SendResult) (i : Nat) (recips : List Recipient)
    (acc : BatchResults) : BatchResults :=
  match recips with
  | [] => acc
  | r :: rest =>
    if r.email = "" then
      sendLoop oracle (i + 1) rest
        { acc with failed := acc.failed + 1
                   errors := acc.errors ++ [(some "N/A", "No email address")] }
    else
      let res := oracle i
      let acc1 :=
        { acc with per_recipient := acc.per_recipient ++
            [({ email := r.email, success := res.success, message_id := res.message_id
                status_code := res.status_code, error := res.error } : PerRecipientOutcome)] }
      let acc2 :=
        if res.success then
          { acc1 with sent := acc1.sent + 1
                      message_ids := acc1.message_ids ++
                        (if res.message_id ≠ "" then [(r.email, res.message_id)] else []) }
        else
          { acc1 with failed := acc1.failed + 1
                      errors := acc1.errors ++ [(some r.email, res.error.getD "Unknown error")] }
      sendLoop oracle (i + 1) rest acc2

/-- Effective subject of a batch:
`(email_content.get("subject") or "").strip() or "Update from our team"`. -/
def effSubject (content : List (String × String)) : String :=
  orStr (dgetD content "subject" "").trim "Update from our team"

/-- Effective body of a batch: the `full_content`/`body`/`content` fallback
chain, stripped, then the minimal safe body. -/
def effBody (content : List (String × String)) : String :=
  orStr (orStr (orStr (dgetD content "full_content" "") (dgetD content "body" ""))
      (dgetD content "content" "")).trim
    "Hello,\n\nWe wanted to share an update with you.\n\nBest regards,\nTeam"

/-- `SendGridSender.send_batch`. -/
def send_batch (oracle : Nat → SendResult) (recipients : List Recipient)
    (content : List (String × String)) : BatchResults :=
  let init : BatchResults :=
    { total := recipients.length, sent := 0, failed := 0
      message_ids := [], errors := [], per_recipient := [] }
  if recipients.isEmpty then init
  else
    let subject := effSubject content
    let body := effBody content
    if subject = "" ∨ body = "" then
      { init with errors := init.errors ++ [(none, "Missing email subject or body")] }
    else
      sendLoop oracle 0 recipients init

/-! ## CampaignOrchestrator (src/orchestrator.py)

The orchestrator is modelled in its SendGrid configuration
(`use_sendgrid = True`, hence `sendgrid_tracker` present), the
configuration all cited claims are about.  External collaborators are
oracles/parameters:

* `sendOracle : Nat → SendResult` — the SendGrid send API (per attempt);
* `tracker : List String → TrackMetrics` — `SendGridTracker.get_campaign_metrics`,
  which always returns a metrics dict (it catches its own exceptions and
  falls back internally), so it is a total function of the message ids;
* `reportFn` — `ReportingAgent.generate_campaign_report`, an opaque
  report-rendering collaborator; its output payload is opaque.

The `UserActivityTracker` CSV sink and the `save_results` file write are
external side effects with no influence on campaign state and are elided.
Logging calls are elided.  Error strings are modelled by their static
prefix (the source interpolates exception text/error lists into them). -/

/-- The slice of a `get_campaign_metrics` result dict that the
orchestrator reads. -/
structure TrackMetrics where
  delivered : Int
  opened : Int
  clicked : Int
  bounced : Int
deriving DecidableEq, Repr

/-- The orchestrator's `CampaignState` dict together with the
`ABTestingAgent.test_results` entry for this campaign (the agent state the
orchestrator mutates through `record_event`).  `variant_sent` is the
insertion-ordered set of labels `l` with `campaign_state["variant_<l>_sent"]
= True`.  Opaque payloads (strategy, segments, deliverability check
entries, report) are kept as opaque dict values. -/
structure CampaignStateM where
  campaign_id : String
  brief : String
  csv_path : String
  strategy : List (String × String)
  segments : List (String × String)
  selected_recipients : List Recipient
  email_variants : List (String × List (String × String))
  ab_test_groups : List (String × List Recipient)
  deliverability_check : List (String × Bool)
  ab_results : List (String × MetricsResult)
  campaign_report : List (String × String)
  status : String
  error : String
  send_results : List (String × BatchResults)
  sendgrid_message_ids : List (String × List String)
  variant_sent : List String
  sendgrid_metrics : List (String × TrackMetrics)
  test_results : Variants
deriving DecidableEq, Repr

/-- `campaign_state["variant_<v>_sent"] = True`. -/
def markVariantSent (l : List String) (v : String) : List String :=
  if v ∈ l then l else l ++ [v]

/-- The per-variant body of `process_results`: for an already-sent variant
with recorded message ids, fetch tracker metrics, record
opened/clicked/bounced events, and store the metrics in the state. -/
def processVariant (tracker : List String → TrackMetrics) (s : CampaignStateM)
    (v : String) : CampaignStateM :=
  if v ∈ s.variant_sent then
    let mids := dgetD s.sendgrid_message_ids v []
    if mids ≠ [] then
      let m := tracker mids
      let tr := record_event s.test_results v "opened" m.opened
      let tr := record_event tr v "clicked" m.clicked
      let tr := record_event tr v "bounced" m.bounced
      { s with test_results := tr, sendgrid_metrics := dset s.sendgrid_metrics v m }
    else s
  else s

/-- `CampaignOrchestrator.process_results` (SendGrid configuration). -/
def process_results (tracker : List String → TrackMetrics)
    (reportFn : String → List (String × String) → List (String × MetricsResult) →
      List (String × Bool) → List (String × String))
    (s : CampaignStateM) : CampaignStateM :=
  let s := (dkeys s.ab_test_groups).foldl (processVariant tracker) s
  let ab := calculate_metrics s.test_results
  let s := { s with ab_results := ab }
  let report := reportFn s.campaign_id s.strategy ab s.deliverability_check
  let s := { s with campaign_report := report }
  match get_winner s.test_results "open_rate" with
  | some w =>
      -- `if winner:` — the empty string is falsy in Python
      if w = "" then { s with status := "completed" }
      else { s with status := "completed_winner_" ++ w }
  | none => { s with status := "completed" }

/-- The dispatch block of `send_variant` (SendGrid branch, lines 396-456):
send the batch, store results and message ids, record the `sent` event,
set the all-failed error, immediately fetch tracker metrics, and mark the
variant sent. -/
def dispatchCore (sendOracle : Nat → SendResult) (tracker : List String → TrackMetrics)
    (s : CampaignStateM) (variant : String) (recipients : List Recipient)
    (content : List (String × String)) : CampaignStateM :=
  let sr := send_batch sendOracle recipients content
  let s := { s with send_results := dset s.send_results variant sr }
  let messageIds := sr.message_ids.map Prod.snd
  let s := { s with sendgrid_message_ids := dset s.sendgrid_message_ids variant messageIds }
  let s :=
    if 0 < sr.sent then
      { s with test_results := record_event s.test_results variant "sent" (sr.sent : Int) }
    else s
  let s :=
    if sr.sent = 0 ∧ 0 < sr.total then
      { s with error := "Failed to send emails. Check logs for details." }
    else s
  -- immediate metrics fetch (`if self.sendgrid_tracker and message_ids:`)
  let s :=
    if messageIds ≠ [] then
      let m := tracker messageIds
      let tr := record_event s.test_results variant "opened" m.opened
      let tr := record_event tr variant "clicked" m.clicked
      let tr := record_event tr variant "bounced" m.bounced
      { s with test_results := tr, sendgrid_metrics := dset s.sendgrid_metrics variant m }
    else s
  { s with status := "variant_" ++ variant ++ "_sent"
           variant_sent := markVariantSent s.variant_sent variant }

/-- `CampaignOrchestrator.send_variant` (SendGrid configuration).  Note
that the function performs no check of `variant_sent` (or of any previous
send result) before dispatching: it validates only that the variant has a
group and content and that both are non-empty, then always re-sends. -/
def send_variant (sendOracle : Nat → SendResult)
    (tracker : List String → TrackMetrics)
    (reportFn : String → List (String × String) → List (String × MetricsResult) →
      List (String × Bool) → List (String × String))
    (s : CampaignStateM) (variant : String) : CampaignStateM :=
  if (dget s.ab_test_groups variant).isNone ∨ (dget s.email_variants variant).isNone then
    { s with error := "Variant " ++ variant ++ " not found" }
  else
    let recipients := dgetD s.ab_test_groups variant []
    let content := dgetD s.email_variants variant []
    if recipients = [] then
      { s with error := "No recipients found for Variant " ++ variant }
    else if content = [] then
      { s with error := "No email content found for Variant " ++ variant }
    else
      let s := dispatchCore sendOracle tracker s variant recipients content
      let allVariants := dkeys s.ab_test_groups
      if allVariants ≠ [] ∧ allVariants.all (fun v => v ∈ s.variant_sent) then
        process_results tracker reportFn s
      else s

/-! ## The automatic pipeline (`run_campaign` and `_build_workflow`)

`_build_workflow` wires `create_strategy → segment_audience →
generate_content → check_deliverability → END` with *unconditional* edges
(no conditional edge inspects `status` or `error`; `_should_proceed` is
defined but never wired into the compiled graph), so `workflow.invoke` is
plain sequential composition of the four node functions.  Each node wraps
its body in `try/except`, never raises, and on exception writes
`error`/`status` into the state it returns.  Collaborators (LLM agents,
CSV segmentation, `random.shuffle`) are parameters; a fallible collaborator
returns `Except String α`, the `String` being the exception text. -/

/-- The `segment_audience` collaborator result: the segments dict (opaque)
plus `segments.get("selected_segment", [])`. -/
structure SegResult where
  data : List (String × String)
  selected_segment : List Recipient
deriving DecidableEq, Repr

/-- `CampaignOrchestrator._create_strategy`; `strategyFn` stands for
`StrategyAgent.create_strategy(brief).get("strategy", {})`. -/
def node_create_strategy (strategyFn : String → Except String (List (String × String)))
    (s : CampaignStateM) : CampaignStateM :=
  match strategyFn s.brief with
  | .ok st => { s with strategy := st, status := "strategy_created" }
  | .error e => { s with error := "Strategy creation failed: " ++ e, status := "error" }

/-- `CampaignOrchestrator._segment_audience`; `segmentFn csv strategy brief`
stands for `SegmentationAgent(csv).segment_audience(strategy ∪ {brief})`. -/
def node_segment_audience
    (segmentFn : String → List (String × String) → String → Except String SegResult)
    (s : CampaignStateM) : CampaignStateM :=
  match segmentFn s.csv_path s.strategy s.brief with
  | .ok seg => { s with segments := seg.data
                        selected_recipients := seg.selected_segment
                        status := "audience_segmented" }
  | .error e => { s with error := "Segmentation failed: " ++ e, status := "error" }

/-- The `for variant, group in ab_groups.items()` content-generation loop:
generate content for each variant in order, failing the whole node on the
first collaborator exception. -/
def genContents (contentFn : List (String × String) → Recipient → String → String →
      Except String (List (String × String)))
    (strategy : List (String × String)) (sample : Recipient) (cid : String) :
    List (String × List Recipient) → Except String (List (String × List (String × String)))
  | [] => .ok []
  | (v, _) :: rest => do
      let c ← contentFn strategy sample v cid
      let r ← genContents contentFn strategy sample cid rest
      .ok ((v, c) :: r)

/-- `CampaignOrchestrator._generate_content`: split the selected recipients
into A/B groups (`num_variants = 2`; `shuffleFn` stands for
`random.shuffle`), store them in the state, then generate per-variant
content.  `random.shuffle` inside `create_test_groups` mutates the very
list object that is `state["selected_recipients"]`, so that field is
reordered in place and the sample recipient (`recipients[0]`, read after
the call) comes from the *shuffled* list.  `state["ab_test_groups"]` is
assigned *before* the content loop, so it survives a content-generation
failure. -/
def node_generate_content (shuffleFn : List Recipient → List Recipient)
    (contentFn : List (String × String) → Recipient → String → String →
      Except String (List (String × String)))
    (s : CampaignStateM) : CampaignStateM :=
  let shuffled := shuffleFn s.selected_recipients
  let abGroups := create_test_groups_run shuffled 2
  let s := { s with selected_recipients := shuffled, ab_test_groups := abGroups }
  let sample := shuffled.headD { email := "test@example.com", name := "Customer" }
  match genContents contentFn s.strategy sample s.campaign_id abGroups with
  | .ok evs => { s with email_variants := evs, status := "content_generated" }
  | .error e => { s with error := "Content generation failed: " ++ e, status := "error" }

/-- The `for variant, content in state["email_variants"].items()` check
loop of `_check_deliverability` (`delivFn content group` stands for
`DeliverabilityAgent.full_check`, its result kept as an opaque pass flag). -/
def runChecks (delivFn : List (String × String) → List Recipient → Except String Bool)
    (groups : List (String × List Recipient)) :
    List (String × List (String × String)) → Except String (List (String × Bool))
  | [] => .ok []
  | (v, c) :: rest => do
      let chk ← delivFn c (dgetD groups v [])
      let r ← runChecks delivFn groups rest
      .ok ((v, chk) :: r)

/-- `CampaignOrchestrator._check_deliverability`. -/
def node_check_deliverability
    (delivFn : List (String × String) → List Recipient → Except String Bool)
    (s : CampaignStateM) : CampaignStateM :=
  match runChecks delivFn s.ab_test_groups s.email_variants with
  | .ok checks => { s with deliverability_check := checks, status := "deliverability_checked" }
  | .error e => { s with error := "Deliverability check failed: " ++ e, status := "error" }

/-- The `initial_state` dict built by `run_campaign` (the `campaign_id`,
`uuid4()[:8]` in the source, is a parameter). -/
def initial_state (cid brief csv : String) : CampaignStateM :=
  { campaign_id := cid, brief := brief, csv_path := csv
    strategy := [], segments := [], selected_recipients := []
    email_variants := [], ab_test_groups := [], deliverability_check := []
    ab_results := [], campaign_report := [], status := "initialized", error := ""
    send_results := [], sendgrid_message_ids := [], variant_sent := []
    sendgrid_metrics := [], test_results := [] }

/-- `CampaignOrchestrator.run_campaign`: invoke the four pipeline nodes in
their fixed, unconditional order and finally stamp
`final_state["status"] = "ready_to_send"`. -/
def run_campaign (strategyFn : String → Except String (List (String × String)))
    (segmentFn : String → List (String × String) → String → Except String SegResult)
    (shuffleFn : List Recipient → List Recipient)
    (contentFn : List (String × String) → Recipient → String → String →
      Except String (List (String × String)))
    (delivFn : List (String × String) → List Recipient → Except String Bool)
    (cid brief csv : String) : CampaignStateM :=
  let s := initial_state cid brief csv
  let s := node_create_strategy strategyFn s
  let s := node_segment_audience segmentFn s
  let s := node_generate_content shuffleFn contentFn s
  let s := node_check_deliverability delivFn s
  { s with status := "ready_to_send" }

/-! ## Dictionary lemmas -/

theorem dget_dset {α : Type} (m : List (String × α)) (k : String) (v : α) (w : String) :
    dget (dset m k v) w = if k = w then some v else dget m w := by
  induction m with
  | nil => simp [dset, dget]
  | cons p t ih =>
    obtain ⟨k', v'⟩ := p
    simp only [dset]
    by_cases hk : k' = k
    · subst hk
      by_cases hw : k' = w <;> simp [dget, hw]
    · simp only [if_neg hk, dget]
      by_cases hw : k' = w
      · subst hw
        have : ¬ k = k' := fun h => hk h.symm
        simp [this]
      · simp [hw, ih]

theorem dget_dmodify {α : Type} (m : List (String × α)) (k : String) (f : α → α) (w : String) :
    dget (dmodify m k f) w = if k = w then (dget m k).map f else dget m w := by
  induction m with
  | nil =>
    simp only [dmodify, dget, Option.map_none]
    by_cases h : k = w <;> simp [h]
  | cons p t ih =>
    obtain ⟨k', v'⟩ := p
    simp only [dmodify]
    by_cases hk : k' = k
    · subst hk
      by_cases hw : k' = w <;> simp [dget, hw]
    · simp only [if_neg hk, dget]
      by_cases hw : k' = w
      · subst hw
        have h1 : ¬ k = k' := fun h => hk h.symm
        simp [h1, hk]
      · simp [hw, ih, hk]

theorem dget_append {α : Type} (m m' : List (String × α)) (w : String) :
    dget (m ++ m') w = ((dget m w).rec (dget m' w) (fun v => some v) : Option α) := by
  induction m with
  | nil => simp [dget]
  | cons p t ih =>
    obtain ⟨k', v'⟩ := p
    by_cases hw : k' = w <;> simp [dget, hw, ih]

theorem dget_ensureVariant (m : Variants) (v w : String) :
    dget (ensureVariant m v) w =
      if w = v then some ((dget m v).getD newVariantData) else dget m w := by
  unfold ensureVariant
  cases h : dget m v with
  | some d =>
    by_cases hw : w = v
    · subst hw; simp [h]
    · simp [hw]
  | none =>
    rw [dget_append]
    by_cases hw : w = v
    · subst hw
      simp [h, dget]
    · cases h' : dget m w with
      | some x => simp [hw, h']
      | none =>
        have : ¬ v = w := fun hvw => hw hvw.symm
        simp [hw, h', dget, this]

/-- Pointwise characterisation of `record_event`: the addressed variant's
record is created if needed and updated through `applyEvent`; every other
key is untouched. -/
theorem dget_record_event (m : Variants) (v : String) (e : String) (c : Int) (w : String) :
    dget (record_event m v e c) w =
      if w = v then some (applyEvent ((dget m v).getD newVariantData) e c)
      else dget m w := by
  unfold record_event
  rw [dget_dmodify]
  by_cases hw : w = v
  · subst hw
    simp [dget_ensureVariant]
  · have h2 : ¬ v = w := fun h => hw h.symm
    simp [h2, hw, dget_ensureVariant]

/-! ## C2 — metrics reconciliation is additive, not a max-merge -/

/-- C2 counterexample: feeding provider counts 5, then 3 (stale), then 8
for the same label's `opened` counter stores `5 + 3 + 8 = 16`, not the
claimed `8`; moreover after the stale `3` the stored value has moved from
`5` to `8`, so a lower report is *not* discarded — `record_event` adds
counts instead of keeping the maximum. -/
theorem record_event_sums_not_max :
    (dget (record_event (record_event (record_event [] "A" "opened" 5)
        "A" "opened" 3) "A" "opened" 8) "A").map VariantData.opened = some 16 ∧
    (dget (record_event (record_event (record_event [] "A" "opened" 5)
        "A" "opened" 3) "A" "opened" 8) "A").map VariantData.opened ≠ some 8 ∧
    (dget (record_event (record_event [] "A" "opened" 5)
        "A" "opened" 3) "A").map VariantData.opened = some 8 := by
  refine ⟨rfl, ?_, rfl⟩
  decide

/-- C2 amended: `record_event` merges counts *additively* into the stored
counters (so 5, 3, 8 yields 16), and for non-negative counts — the only
counts the orchestrator ever feeds it — no stored counter ever decreases
across successive reconciliations. -/
theorem record_event_additive_monotone :
    (∀ (m : Variants) (v e : String) (c : Int) (w : String) (d d' : VariantData),
      0 ≤ c → dget m w = some d → dget (record_event m v e c) w = some d' →
      d.sent ≤ d'.sent ∧ d.opened ≤ d'.opened ∧ d.clicked ≤ d'.clicked ∧
        d.converted ≤ d'.converted) ∧
    (∀ c₁ c₂ c₃ : Int,
      (dget (record_event (record_event (record_event [] "A" "opened" c₁)
          "A" "opened" c₂) "A" "opened" c₃) "A").map VariantData.opened
        = some (c₁ + c₂ + c₃)) := by
  constructor
  · intro m v e c w d d' hc hd hd'
    rw [dget_record_event] at hd'
    by_cases hw : w = v
    · rw [if_pos hw] at hd'
      rw [hw] at hd
      rw [hd] at hd'
      simp only [Option.getD_some, Option.some_inj] at hd'
      subst hd'
      unfold applyEvent
      split
      · simp; omega
      · split
        · simp; omega
        · split
          · simp; omega
          · split
            · simp; omega
            · simp
    · rw [if_neg hw] at hd'
      rw [hd] at hd'
      simp only [Option.some_inj] at hd'
      subst hd'
      exact ⟨le_refl _, le_refl _, le_refl _, le_refl _⟩
  · intro c₁ c₂ c₃
    simp only [dget_record_event, if_pos rfl]
    simp [dget, applyEvent, newVariantData]

/-- Witness for `record_event_additive_monotone`: the monotonicity part at a
concrete reconciliation (stored `opened = 5`, provider reports 3 more). -/
theorem record_event_additive_monotone_witness :
    (0 : Int) ≤ 3 ∧
    ((0 : Int) ≤ 0 ∧ (5 : Int) ≤ 8 ∧ (0 : Int) ≤ 0 ∧ (0 : Int) ≤ 0) := by
  refine ⟨by decide, ?_⟩
  have h := record_event_additive_monotone.1
    [("A", { metrics := [], sent := 0, opened := 5, clicked := 0, converted := 0 })]
    "A" "opened" 3 "A"
    { metrics := [], sent := 0, opened := 5, clicked := 0, converted := 0 }
    { metrics := [], sent := 0, opened := 8, clicked := 0, converted := 0 }
    (by decide) (by decide) (by decide)
  exact h

/-! ## C5 — `num_variants` is clamped only from above -/

/-- C5 counterexample: `create_test_groups` with `num_variants = 0` raises
`ZeroDivisionError` (`len(recipients) // 0`) instead of clamping `0` into
`[1, 3]`, for non-empty and empty recipient lists alike. -/
theorem create_test_groups_zero_division :
    create_test_groups ([{ email := "a@x.com", name := "A" }] : List Recipient) 0 = none ∧
    create_test_groups ([] : List Recipient) 0 = none := by
  exact ⟨rfl, rfl⟩

/-- C5 amended: `num_variants` is clamped only from above
(`min(num_variants, 3)`): every `n ≥ 1` returns normally (values above 3
behave exactly like 3), and an empty recipient list yields all-empty
groups rather than an error; but `n = 0` raises `ZeroDivisionError`
(there is no clamping of `n ≤ 0` into `[1, 3]`). -/
theorem create_test_groups_clamp_above :
    (∀ (l : List Recipient) (n : Int), 1 ≤ n →
      ∃ gs, create_test_groups l n = some gs) ∧
    (∀ (l : List Recipient) (n : Int), 3 ≤ n →
      create_test_groups l n = create_test_groups l 3) ∧
    (∀ n : Int, 1 ≤ n →
      create_test_groups ([] : List Recipient) n =
        some ((pySlice variantLabels 0 (min n 3)).map
          (fun v => (v, ([] : List Recipient))))) ∧
    (∀ l : List Recipient, create_test_groups l 0 = none) := by
  have hmin : ∀ n : Int, 1 ≤ n → ¬ (min n 3 = 0) := by
    intro n hn h
    have : (1 : Int) ≤ min n 3 := le_min hn (by norm_num)
    omega
  refine ⟨?_, ?_, ?_, ?_⟩
  · intro l n hn
    exact ⟨_, by unfold create_test_groups; rw [if_neg (hmin n hn)]⟩
  · intro l n hn
    have h3 : min n 3 = 3 := min_eq_right hn
    unfold create_test_groups create_test_groups_run
    rw [h3]
    norm_num
  · intro n hn
    unfold create_test_groups
    rw [if_neg (hmin n hn)]
    unfold create_test_groups_run
    have hz : Int.fdiv ((List.length ([] : List Recipient) : Nat) : Int) (min n 3) = 0 := by
      simp [Int.fdiv]
    simp only [hz]
    have hmap : ∀ labels : List String,
        labels.enum.map (fun p =>
          if (p.1 : Int) = (labels.length : Int) - 1
          then (p.2, pySliceFrom ([] : List Recipient) ((p.1 : Int) * 0))
          else (p.2, pySlice ([] : List Recipient) ((p.1 : Int) * 0) ((p.1 : Int) * 0 + 0)))
          = labels.map (fun v => (v, ([] : List Recipient))) := by
      intro labels
      have h1 : ∀ p : Nat × String,
          (if (p.1 : Int) = (labels.length : Int) - 1
           then (p.2, pySliceFrom ([] : List Recipient) ((p.1 : Int) * 0))
           else (p.2, pySlice ([] : List Recipient) ((p.1 : Int) * 0) ((p.1 : Int) * 0 + 0)))
            = (p.2, ([] : List Recipient)) := by
        intro p
        split <;> simp [pySliceFrom, pySlice]
      calc labels.enum.map (fun p =>
              if (p.1 : Int) = (labels.length : Int) - 1
              then (p.2, pySliceFrom ([] : List Recipient) ((p.1 : Int) * 0))
              else (p.2, pySlice ([] : List Recipient) ((p.1 : Int) * 0) ((p.1 : Int) * 0 + 0)))
          = labels.enum.map (fun p => (p.2, ([] : List Recipient))) := by
            exact List.map_congr_left (fun p _ => h1 p)
        _ = (labels.enum.map Prod.snd).map (fun v => (v, ([] : List Recipient))) := by
            rw [List.map_map]
            rfl
        _ = labels.map (fun v => (v, ([] : List Recipient))) := by
            rw [List.enum_map_snd]
    simp only [Option.some_inj]
    exact hmap _
  · intro l
    rfl

/-- Witness for `create_test_groups_clamp_above` at concrete inputs:
`n = 5` clamps to three groups, `n = 2` on an empty list yields two empty
groups. -/
theorem create_test_groups_clamp_above_witness :
    ((3 : Int) ≤ 5 ∧ create_test_groups ([] : List Recipient) 5 =
      create_test_groups ([] : List Recipient) 3) ∧
    ((1 : Int) ≤ 2 ∧ create_test_groups ([] : List Recipient) 2 =
      some ((pySlice variantLabels 0 (min 2 3)).map
        (fun v => (v, ([] : List Recipient))))) := by
  exact ⟨⟨by norm_num, create_test_groups_clamp_above.2.1 [] 5 (by norm_num)⟩,
         ⟨by norm_num, create_test_groups_clamp_above.2.2.1 2 (by norm_num)⟩⟩

/-! ## Evaluation lemmas for the rounding model -/

theorem roundHalfEven_intCast (n : Int) : roundHalfEven ((n : Rat)) = n := by
  unfold roundHalfEven
  rw [Int.floor_intCast]
  norm_num

theorem pyRound2_intCast (n : Int) : pyRound2 ((n : Rat)) = (n : Rat) := by
  unfold pyRound2
  have h : ((n : Rat) * 100) = (((n * 100 : Int)) : Rat) := by push_cast; ring
  rw [h, roundHalfEven_intCast]
  push_cast
  field_simp

theorem pyRound2_zero : pyRound2 0 = 0 := by
  simpa using pyRound2_intCast 0

/-! ## C8 — rate computation is total and exact -/

theorem dget_calculate_metrics (m : Variants) (v : String) :
    dget (calculate_metrics m) v = (dget m v).map variantMetrics := by
  induction m with
  | nil => simp [calculate_metrics, dget]
  | cons p t ih =>
    obtain ⟨k, d⟩ := p
    by_cases hk : k = v <;> simp [calculate_metrics, dget, hk] <;>
      simpa [calculate_metrics] using ih

/-- C8: for every variant record, `calculate_metrics` computes
`open_rate = opened/sent*100`, `click_rate = clicked/sent*100`,
`conversion_rate = converted/sent*100` and
`click_through_rate = clicked/opened*100`, each rounded to two decimal
places (Python's round-half-to-even, modelled exactly over `Rat`); when
`sent` (resp. `opened`) is not positive the corresponding rates are `0`
rather than a division error, and `sent=100, opened=23` gives exactly
`23.00`. -/
theorem calculate_metrics_rates_total_exact :
    (∀ (m : Variants) (v : String) (d : VariantData), dget m v = some d →
      ∃ r, dget (calculate_metrics m) v = some r ∧
        r.open_rate = pyRound2 (if 0 < d.sent then (d.opened : Rat) / (d.sent : Rat) * 100 else 0) ∧
        r.click_rate = pyRound2 (if 0 < d.sent then (d.clicked : Rat) / (d.sent : Rat) * 100 else 0) ∧
        r.conversion_rate =
          pyRound2 (if 0 < d.sent then (d.converted : Rat) / (d.sent : Rat) * 100 else 0) ∧
        r.click_through_rate =
          pyRound2 (if 0 < d.opened then (d.clicked : Rat) / (d.opened : Rat) * 100 else 0) ∧
        (d.sent = 0 → r.open_rate = 0 ∧ r.click_rate = 0 ∧ r.conversion_rate = 0) ∧
        (d.opened = 0 → r.click_through_rate = 0)) ∧
    ((calculate_metrics
        [("A", { metrics := [], sent := 100, opened := 23, clicked := 0, converted := 0 })]).map
      (fun p => p.2.open_rate) = [23]) := by
  constructor
  · intro m v d hd
    refine ⟨variantMetrics d, ?_, rfl, rfl, rfl, rfl, ?_, ?_⟩
    · rw [dget_calculate_metrics, hd]
      rfl
    · intro hs
      have h0 : ¬ (0 < d.sent) := by omega
      unfold variantMetrics
      simp only [if_neg h0]
      exact ⟨pyRound2_zero, pyRound2_zero, pyRound2_zero⟩
    · intro ho
      have h0 : ¬ (0 < d.opened) := by omega
      unfold variantMetrics
      simp only [if_neg h0]
      exact pyRound2_zero
  · have h23 : pyRound2 ((23 : Rat)) = 23 := by
      have h : ((23 : Rat)) = (((23 : Int)) : Rat) := by norm_num
      rw [h, pyRound2_intCast]
    simp only [calculate_metrics, variantMetrics, List.map_cons, List.map_nil]
    norm_num [h23]

/-- Witness for `calculate_metrics_rates_total_exact`: the `sent = 0`
variant evaluates to all-zero rates with no division error. -/
theorem calculate_metrics_rates_total_exact_witness :
    ∃ r, dget (calculate_metrics
        [("Z", { metrics := [], sent := 0, opened := 0, clicked := 0, converted := 0 })])
        "Z" = some r ∧
      r.open_rate = pyRound2 (if 0 < (0 : Int) then ((0 : Int) : Rat) / ((0 : Int) : Rat) * 100 else 0) ∧
      r.click_rate = pyRound2 (if 0 < (0 : Int) then ((0 : Int) : Rat) / ((0 : Int) : Rat) * 100 else 0) ∧
      r.conversion_rate = pyRound2 (if 0 < (0 : Int) then ((0 : Int) : Rat) / ((0 : Int) : Rat) * 100 else 0) ∧
      r.click_through_rate = pyRound2 (if 0 < (0 : Int) then ((0 : Int) : Rat) / ((0 : Int) : Rat) * 100 else 0) ∧
      ((0 : Int) = 0 → r.open_rate = 0 ∧ r.click_rate = 0 ∧ r.conversion_rate = 0) ∧
      ((0 : Int) = 0 → r.click_through_rate = 0) := by
  exact calculate_metrics_rates_total_exact.1
    [("Z", { metrics := [], sent := 0, opened := 0, clicked := 0, converted := 0 })]
    "Z" { metrics := [], sent := 0, opened := 0, clicked := 0, converted := 0 } rfl

/-! ## C7 — winner selection: strictly-greater updates, first-seen-wins,
but over dict *insertion* order, not a fixed label order -/

theorem winnerStep_best_le (primary : String) (acc : Option String × Rat)
    (p : String × MetricsResult) : acc.2 ≤ (winnerStep primary acc p).2 := by
  unfold winnerStep
  split
  · exact le_of_lt (by assumption)
  · exact le_refl _

theorem winnerStep_score_le (primary : String) (acc : Option String × Rat)
    (p : String × MetricsResult) : metricGet p.2 primary ≤ (winnerStep primary acc p).2 := by
  unfold winnerStep
  split
  · exact le_refl _
  · exact le_of_not_lt (by assumption)

theorem winnerStep_fst (primary : String) (acc : Option String × Rat)
    (p : String × MetricsResult) :
    (winnerStep primary acc p).1 = some p.1 ∨ (winnerStep primary acc p).1 = acc.1 := by
  unfold winnerStep
  split
  · exact Or.inl rfl
  · exact Or.inr rfl

theorem foldl_winnerStep_best_le (primary : String) (ps : List (String × MetricsResult)) :
    ∀ acc : Option String × Rat, acc.2 ≤ (ps.foldl (winnerStep primary) acc).2 := by
  induction ps with
  | nil => intro acc; exact le_refl _
  | cons p t ih =>
    intro acc
    calc acc.2 ≤ (winnerStep primary acc p).2 := winnerStep_best_le primary acc p
      _ ≤ (t.foldl (winnerStep primary) (winnerStep primary acc p)).2 := ih _

theorem foldl_winnerStep_winner_origin (primary : String)
    (ps : List (String × MetricsResult)) :
    ∀ acc : Option String × Rat,
      (ps.foldl (winnerStep primary) acc).1 = acc.1 ∨
      ∃ x ∈ ps, (ps.foldl (winnerStep primary) acc).1 = some x.1 := by
  induction ps with
  | nil => intro acc; exact Or.inl rfl
  | cons p t ih =>
    intro acc
    rcases ih (winnerStep primary acc p) with h | ⟨x, hx, h⟩
    · rcases winnerStep_fst primary acc p with h' | h'
      · exact Or.inr ⟨p, List.mem_cons_self p t, by rw [List.foldl_cons, h, h']⟩
      · exact Or.inl (by rw [List.foldl_cons, h, h'])
    · exact Or.inr ⟨x, List.mem_cons_of_mem p hx, by rw [List.foldl_cons, h]⟩

/-- C7 amended: `get_winner` iterates the variants dict in *insertion*
order (the order in which labels were first recorded), a label becomes the
leader only when its primary-metric score is strictly greater than the
running best, and at equal scores the earlier-*inserted* label wins: a
label whose score does not exceed some earlier label's score is never
returned.  (The fixed order A, B, C holds only when labels were inserted
in that order.) -/
theorem get_winner_first_seen_wins (m : Variants) (primary : String)
    (xs ys zs : List (String × MetricsResult)) (a b : String)
    (da db : MetricsResult)
    (hm : calculate_metrics m = xs ++ ((a, da) :: (ys ++ ((b, db) :: zs))))
    (hnd : ((calculate_metrics m).map Prod.fst).Nodup)
    (hle : metricGet db primary ≤ metricGet da primary) :
    get_winner m primary ≠ some b := by
  intro hwin
  unfold get_winner at hwin
  rw [hm, List.foldl_append, List.foldl_cons, List.foldl_append, List.foldl_cons] at hwin
  set acc0 : Option String × Rat := List.foldl (winnerStep primary) (none, -1) xs with hacc0
  set acc1 : Option String × Rat := winnerStep primary acc0 (a, da) with hacc1
  set acc2 : Option String × Rat := List.foldl (winnerStep primary) acc1 ys with hacc2
  have hb : winnerStep primary acc2 (b, db) = acc2 := by
    have h1 : metricGet da primary ≤ acc1.2 := winnerStep_score_le primary acc0 (a, da)
    have h2 : acc1.2 ≤ acc2.2 := by
      rw [hacc2]
      exact foldl_winnerStep_best_le primary ys acc1
    have h3 : ¬ acc2.2 < metricGet db primary := not_lt.mpr (hle.trans (h1.trans h2))
    unfold winnerStep
    rw [if_neg h3]
  rw [hb] at hwin
  -- extract the no-duplicate-keys facts
  rw [hm, List.map_append, List.map_cons, List.map_append, List.map_cons] at hnd
  rw [List.nodup_append] at hnd
  obtain ⟨-, h2, h3⟩ := hnd
  rw [List.nodup_cons] at h2
  obtain ⟨hanin, h4⟩ := h2
  rw [List.nodup_append] at h4
  obtain ⟨-, h5, hdisj⟩ := h4
  rw [List.nodup_cons] at h5
  obtain ⟨hbzs, -⟩ := h5
  have hbys : b ∉ ys.map Prod.fst := fun hmem =>
    hdisj hmem (List.mem_cons_self b (zs.map Prod.fst))
  have hba : b ≠ a := fun hba => hanin (hba ▸ List.mem_append_right _
    (List.mem_cons_self b (zs.map Prod.fst)))
  have hbxs : b ∉ xs.map Prod.fst := fun hmem =>
    h3 hmem (List.mem_cons_of_mem a
      (List.mem_append_right _ (List.mem_cons_self b (zs.map Prod.fst))))
  -- the final winner comes from acc2 or from zs
  rcases foldl_winnerStep_winner_origin primary zs acc2 with h | ⟨x, hx, h⟩
  · rw [h] at hwin
    -- acc2.1 comes from acc1 or from ys
    rcases foldl_winnerStep_winner_origin primary ys acc1 with h' | ⟨y, hy, h'⟩
    · rw [← hacc2] at h'
      rw [h'] at hwin
      rcases winnerStep_fst primary acc0 (a, da) with h'' | h''
      · rw [← hacc1] at h''
        rw [h''] at hwin
        exact hba (Option.some_inj.mp hwin).symm
      · rw [← hacc1] at h''
        rw [h''] at hwin
        rcases foldl_winnerStep_winner_origin primary xs (none, -1) with h3' | ⟨w, hw, h3'⟩
        · rw [← hacc0] at h3'
          rw [h3'] at hwin
          exact Option.noConfusion hwin
        · rw [← hacc0] at h3'
          rw [h3'] at hwin
          refine hbxs ?_
          rw [← Option.some_inj.mp hwin]
          exact List.mem_map.mpr ⟨w, hw, rfl⟩
    · rw [← hacc2] at h'
      rw [h'] at hwin
      refine hbys ?_
      rw [← Option.some_inj.mp hwin]
      exact List.mem_map.mpr ⟨y, hy, rfl⟩
  · rw [h] at hwin
    refine hbzs ?_
    rw [← Option.some_inj.mp hwin]
    exact List.mem_map.mpr ⟨x, hx, rfl⟩

/-- The variant record shared by both tied variants in the C7 examples:
`sent = 100`, `opened = 20`, giving `open_rate = 20.00`. -/
def dBoth : VariantData :=
  { metrics := [], sent := 100, opened := 20, clicked := 0, converted := 0 }

/-- The agent state reached by recording events for label B *before*
label A (e.g. the operator dispatched variant B first): insertion order is
B, A, both with `open_rate = 20.00`. -/
def vtieBA : Variants :=
  record_event (record_event (record_event (record_event [] "B" "sent" 100)
    "B" "opened" 20) "A" "sent" 100) "A" "opened" 20

/-- The same events recorded in order A, B. -/
def vtieAB : Variants :=
  record_event (record_event (record_event (record_event [] "A" "sent" 100)
    "A" "opened" 20) "B" "sent" 100) "B" "opened" 20

theorem metricGet_dBoth : metricGet (variantMetrics dBoth) "open_rate" = 20 := by
  have h : (variantMetrics dBoth).open_rate = 20 := by
    show pyRound2 (if (0 : Int) < 100 then ((20 : Int) : Rat) / ((100 : Int) : Rat) * 100 else 0) = 20
    rw [if_pos (by norm_num)]
    have h2 : ((20 : Int) : Rat) / ((100 : Int) : Rat) * 100 = (((20 : Int)) : Rat) := by norm_num
    rw [h2, pyRound2_intCast]
    norm_num
  unfold metricGet
  rw [if_neg (by decide), if_neg (by decide), if_neg (by decide), if_neg (by decide), if_pos rfl]
  exact h

/-- C7 counterexample: in a reachable agent state where label B was
recorded before label A (both with `open_rate = 20.00`), `get_winner`
returns B, not the positionally-earlier label A — the tie-break follows
dict insertion order, not the fixed order A, B, C. -/
theorem get_winner_tie_goes_to_insertion_order :
    get_winner vtieBA "open_rate" = some "B" ∧
    get_winner vtieBA "open_rate" ≠ some "A" := by
  have hv : vtieBA = [("B", dBoth), ("A", dBoth)] := by rfl
  have hwin : get_winner vtieBA "open_rate" = some "B" := by
    rw [hv]
    unfold get_winner calculate_metrics
    simp only [List.map_cons, List.map_nil, List.foldl_cons, List.foldl_nil,
      winnerStep, metricGet_dBoth]
    norm_num
  exact ⟨hwin, by rw [hwin]; simp⟩

/-- Witness for `get_winner_first_seen_wins`: with insertion order A, B and
equal scores, B is not the winner (so A beats B exactly when A was inserted
first). -/
theorem get_winner_first_seen_wins_witness :
    get_winner vtieAB "open_rate" ≠ some "B" := by
  exact get_winner_first_seen_wins vtieAB "open_rate" [] [] [] "A" "B"
    (variantMetrics dBoth) (variantMetrics dBoth) rfl (by decide) (le_refl _)

/-! ## C4 — `create_test_groups` partitions its input -/

theorem pyIndex_natCast (len : Nat) (k : Nat) : pyIndex len ((k : Nat) : Int) = min k len := by
  unfold pyIndex
  rw [if_neg (by omega)]
  simp

theorem take_min_length {α : Type} (l : List α) (n : Nat) : l.take (min n l.length) = l.take n := by
  rcases le_total n l.length with h | h
  · rw [min_eq_left h]
  · rw [min_eq_right h, List.take_of_length_le h, List.take_of_length_le (le_refl _)]

theorem pySlice_natCast {α : Type} (l : List α) (a b : Nat) :
    pySlice l ((a : Nat) : Int) ((b : Nat) : Int) = (l.take b).drop a := by
  unfold pySlice
  rw [pyIndex_natCast, pyIndex_natCast, take_min_length]
  rcases le_total a l.length with h | h
  · rw [min_eq_left h]
  · rw [min_eq_right h]
    rw [List.drop_eq_nil_of_le, List.drop_eq_nil_of_le]
    · exact le_trans (l.length_take b ▸ min_le_right _ _) h
    · exact le_trans (l.length_take b ▸ min_le_right _ _) (le_refl _)

theorem pySliceFrom_natCast {α : Type} (l : List α) (a : Nat) :
    pySliceFrom l ((a : Nat) : Int) = l.drop a := by
  unfold pySliceFrom
  rw [pyIndex_natCast]
  rcases le_total a l.length with h | h
  · rw [min_eq_left h]
  · rw [min_eq_right h, List.drop_eq_nil_of_le (le_refl _), List.drop_eq_nil_of_le h]

theorem ctg_run_two {α : Type} (l : List α) : create_test_groups_run l 2 =
    [("A", l.take (l.length / 2)), ("B", l.drop (l.length / 2))] := by
  have hg : Int.fdiv ((l.length : Nat) : Int) (min (2 : Int) 3) = ((l.length / 2 : Nat) : Int) := by
    rw [show min (2 : Int) 3 = ((2 : Nat) : Int) by norm_num]
    exact (Int.ofNat_fdiv _ _).symm
  have hlab : pySlice variantLabels 0 (min (2 : Int) 3) = ["A", "B"] := by decide
  simp only [create_test_groups_run, hg, hlab]
  have henum : (["A", "B"] : List String).enum = [(0, "A"), (1, "B")] := rfl
  rw [henum]
  simp only [List.map_cons, List.map_nil]
  norm_num
  constructor
  · rw [show ((l.length : Nat) : Int) / 2 = ((l.length / 2 : Nat) : Int) by omega]
    rw [show (0 : Int) = ((0 : Nat) : Int) by norm_num]
    rw [pySlice_natCast]
    simp
  · rw [show ((l.length : Nat) : Int) / 2 = ((l.length / 2 : Nat) : Int) by omega]
    rw [pySliceFrom_natCast]


theorem ctg_run_one {α : Type} (l : List α) : create_test_groups_run l 1 = [("A", l)] := by
  have hlab : pySlice variantLabels 0 (min (1 : Int) 3) = ["A"] := by decide
  simp only [create_test_groups_run, hlab]
  have henum : (["A"] : List String).enum = [(0, "A")] := rfl
  rw [henum]
  simp only [List.map_cons, List.map_nil]
  norm_num
  rw [show (0 : Int) = ((0 : Nat) : Int) by norm_num, pySliceFrom_natCast]
  simp

theorem ctg_run_three {α : Type} (l : List α) : create_test_groups_run l 3 =
    [("A", l.take (l.length / 3)),
     ("B", (l.take (l.length / 3 + l.length / 3)).drop (l.length / 3)),
     ("C", l.drop (l.length / 3 + l.length / 3))] := by
  have hg : Int.fdiv ((l.length : Nat) : Int) (min (3 : Int) 3) = ((l.length / 3 : Nat) : Int) := by
    rw [show min (3 : Int) 3 = ((3 : Nat) : Int) by norm_num]
    exact (Int.ofNat_fdiv _ _).symm
  have hlab : pySlice variantLabels 0 (min (3 : Int) 3) = ["A", "B", "C"] := by decide
  simp only [create_test_groups_run, hg, hlab]
  have henum : (["A", "B", "C"] : List String).enum = [(0, "A"), (1, "B"), (2, "C")] := rfl
  rw [henum]
  simp only [List.map_cons, List.map_nil]
  norm_num
  refine ⟨?_, ?_, ?_⟩
  · rw [show ((l.length : Nat) : Int) / 3 = ((l.length / 3 : Nat) : Int) by omega,
        show (0 : Int) = ((0 : Nat) : Int) by norm_num, pySlice_natCast]
    simp
  · rw [show ((l.length : Nat) : Int) / 3 + ((l.length : Nat) : Int) / 3
        = ((l.length / 3 + l.length / 3 : Nat) : Int) by omega]
    rw [show ((l.length : Nat) : Int) / 3 = ((l.length / 3 : Nat) : Int) by omega]
    rw [pySlice_natCast]
  · rw [show 2 * (((l.length : Nat) : Int) / 3)
        = ((l.length / 3 + l.length / 3 : Nat) : Int) by omega]
    rw [pySliceFrom_natCast]


/-- C4: for every recipient list and every shuffle of it (modelling
`random.shuffle`), and every `n ∈ {1,2,3}`, `create_test_groups` returns
groups that form an exact partition of the input: their concatenation is a
permutation of the input (order-independent union, sizes summing to `k`),
the groups are pairwise disjoint when the input has no duplicates, labels
are assigned in the fixed order A, B, C, and every non-last group has
exactly `⌊k/n⌋` elements (the last label absorbs the remainder). -/
theorem create_test_groups_partition (recipients shuffled : List Recipient) (n : Int)
    (hperm : shuffled.Perm recipients) (hn : n = 1 ∨ n = 2 ∨ n = 3) :
    ∃ gs, create_test_groups shuffled n = some gs ∧
      (gs.map Prod.snd).flatten.Perm recipients ∧
      ((gs.map Prod.snd).map List.length).sum = recipients.length ∧
      (recipients.Nodup → (gs.map Prod.snd).Pairwise List.Disjoint) ∧
      gs.map Prod.fst = variantLabels.take n.toNat ∧
      (∀ g ∈ (gs.map Prod.snd).dropLast, g.length = recipients.length / n.toNat) := by
  have hlen : shuffled.length = recipients.length := hperm.length_eq
  rcases hn with rfl | rfl | rfl
  · -- n = 1: the single label A receives the whole list
    refine ⟨[("A", shuffled)], ?_, ?_, ?_, ?_, ?_, ?_⟩
    · unfold create_test_groups
      rw [if_neg (by norm_num), ctg_run_one]
    · simpa using hperm
    · simpa using hlen
    · intro _
      simp
    · rfl
    · simp
  · -- n = 2: A gets the first ⌊len/2⌋ recipients, B the rest
    have hd2 : shuffled.length / 2 ≤ shuffled.length := Nat.div_le_self _ _
    refine ⟨[("A", shuffled.take (shuffled.length / 2)),
             ("B", shuffled.drop (shuffled.length / 2))], ?_, ?_, ?_, ?_, ?_, ?_⟩
    · unfold create_test_groups
      rw [if_neg (by norm_num), ctg_run_two]
    · have hj : ([shuffled.take (shuffled.length / 2),
          shuffled.drop (shuffled.length / 2)] : List (List Recipient)).flatten = shuffled := by
        simp [List.take_append_drop]
      simpa [hj] using hperm
    · simp only [List.map_cons, List.map_nil, List.length_take, List.length_drop, List.sum_cons,
        List.sum_nil]
      rw [min_eq_left hd2]
      omega
    · intro h
      have hl : shuffled.Nodup := (hperm.nodup_iff).mpr h
      simp only [List.map_cons, List.map_nil, List.pairwise_cons, List.mem_cons,
        List.not_mem_nil, List.mem_singleton]
      refine ⟨?_, ?_, List.Pairwise.nil⟩
      · intro g hg
        rcases hg with rfl | hg
        · exact List.disjoint_take_drop hl (le_refl _)
        · cases hg
      · intro g hg
        cases hg
    · rfl
    · intro g hg
      simp only [List.map_cons, List.map_nil, List.dropLast, List.mem_singleton] at hg
      subst hg
      rw [List.length_take, min_eq_left hd2, hlen]
      rfl
  · -- n = 3: A and B get ⌊len/3⌋ each, C absorbs the remainder
    have h3a : 3 * (shuffled.length / 3) ≤ shuffled.length := Nat.mul_div_le shuffled.length 3
    have hg1 : shuffled.length / 3 ≤ shuffled.length := Nat.div_le_self _ _
    have hgg : shuffled.length / 3 + shuffled.length / 3 ≤ shuffled.length := by omega
    have hjoin : shuffled.take (shuffled.length / 3) ++
        ((shuffled.take (shuffled.length / 3 + shuffled.length / 3)).drop (shuffled.length / 3) ++
          shuffled.drop (shuffled.length / 3 + shuffled.length / 3)) = shuffled := by
      rw [← List.append_assoc]
      rw [show shuffled.take (shuffled.length / 3)
          = (shuffled.take (shuffled.length / 3 + shuffled.length / 3)).take (shuffled.length / 3) by
        rw [List.take_take, min_eq_left (by omega)]]
      rw [List.take_append_drop, List.take_append_drop]
    refine ⟨[("A", shuffled.take (shuffled.length / 3)),
             ("B", (shuffled.take (shuffled.length / 3 + shuffled.length / 3)).drop
                (shuffled.length / 3)),
             ("C", shuffled.drop (shuffled.length / 3 + shuffled.length / 3))], ?_, ?_, ?_, ?_, ?_, ?_⟩
    · unfold create_test_groups
      rw [if_neg (by norm_num), ctg_run_three]
    · have hj := hjoin
      simp only [List.map_cons, List.map_nil, List.flatten_cons, List.flatten_nil,
        List.append_nil]
      rw [hjoin]
      exact hperm
    · simp only [List.map_cons, List.map_nil, List.length_take, List.length_drop, List.sum_cons,
        List.sum_nil]
      rw [min_eq_left hg1, min_eq_left hgg]
      omega
    · intro h
      have hl : shuffled.Nodup := (hperm.nodup_iff).mpr h
      rw [← hjoin] at hl
      rw [List.nodup_append] at hl
      obtain ⟨-, h2, hd1⟩ := hl
      rw [List.nodup_append] at h2
      obtain ⟨-, -, hd23⟩ := h2
      rw [List.disjoint_append_right] at hd1
      obtain ⟨hd12, hd13⟩ := hd1
      simp only [List.map_cons, List.map_nil, List.pairwise_cons, List.mem_cons,
        List.mem_singleton, List.not_mem_nil]
      refine ⟨?_, ?_, ?_, List.Pairwise.nil⟩
      · intro g hg
        rcases hg with rfl | rfl | hg
        · exact hd12
        · exact hd13
        · cases hg
      · intro g hg
        rcases hg with rfl | hg
        · exact hd23
        · cases hg
      · intro g hg
        cases hg
    · rfl
    · intro g hg
      simp only [List.map_cons, List.map_nil, List.dropLast, List.mem_cons,
        List.mem_singleton] at hg
      rcases hg with rfl | rfl | hg
      · rw [List.length_take, min_eq_left hg1, hlen]
        rfl
      · rw [List.length_drop, List.length_take, min_eq_left hgg]
        have ht : (3 : Int).toNat = 3 := rfl
        rw [ht, ← hlen]
        omega
      · cases hg


/-- Concrete recipient list used by witnesses. -/
def wRecips : List Recipient :=
  [{ email := "a@x.com", name := "A" }, { email := "b@x.com", name := "B" },
   { email := "c@x.com", name := "C" }]

/-- Witness for `create_test_groups_partition`: three distinct recipients,
two variants (the identity shuffle). -/
theorem create_test_groups_partition_witness :
    ∃ gs, create_test_groups wRecips 2 = some gs ∧
      (gs.map Prod.snd).flatten.Perm wRecips ∧
      ((gs.map Prod.snd).map List.length).sum = wRecips.length ∧
      (wRecips.Nodup → (gs.map Prod.snd).Pairwise List.Disjoint) ∧
      gs.map Prod.fst = variantLabels.take (2 : Int).toNat ∧
      (∀ g ∈ (gs.map Prod.snd).dropLast, g.length = wRecips.length / (2 : Int).toNat) := by
  exact create_test_groups_partition wRecips wRecips 2 (List.Perm.refl _) (Or.inr (Or.inl rfl))


/-! ## C10 / C6 — `send_batch` accounting -/

theorem sendLoop_total (oracle : Nat → SendResult) (recips : List Recipient) :
    ∀ (i : Nat) (acc : BatchResults), (sendLoop oracle i recips acc).total = acc.total := by
  induction recips with
  | nil => intro i acc; rfl
  | cons r rest ih =>
    intro i acc
    by_cases he : r.email = ""
    · simp only [sendLoop, if_pos he]
      exact ih _ _
    · simp only [sendLoop, if_neg he]
      rw [ih]
      split <;> rfl

theorem sendLoop_sent_failed (oracle : Nat → SendResult) (recips : List Recipient) :
    ∀ (i : Nat) (acc : BatchResults),
      (sendLoop oracle i recips acc).sent + (sendLoop oracle i recips acc).failed
        = acc.sent + acc.failed + recips.length := by
  induction recips with
  | nil => intro i acc; simp [sendLoop]
  | cons r rest ih =>
    intro i acc
    by_cases he : r.email = ""
    · simp only [sendLoop, if_pos he]
      rw [ih]
      simp only [List.length_cons]
      omega
    · simp only [sendLoop, if_neg he]
      rw [ih]
      simp only [List.length_cons]
      split <;> simp <;> omega

theorem sendLoop_per_emails (oracle : Nat → SendResult) (recips : List Recipient) :
    ∀ (i : Nat) (acc : BatchResults),
      (sendLoop oracle i recips acc).per_recipient.map PerRecipientOutcome.email
        = acc.per_recipient.map PerRecipientOutcome.email
          ++ (recips.filter (fun r => ¬ r.email = "")).map Recipient.email := by
  induction recips with
  | nil => intro i acc; simp [sendLoop]
  | cons r rest ih =>
    intro i acc
    by_cases he : r.email = ""
    · simp only [sendLoop, if_pos he]
      rw [ih]
      rw [List.filter_cons_of_neg (by simpa using he)]
    · simp only [sendLoop, if_neg he]
      rw [ih]
      rw [List.filter_cons_of_pos (by simpa using he)]
      split <;> simp

theorem orStr_ne_empty (a b : String) (hb : b ≠ "") : orStr a b ≠ "" := by
  unfold orStr
  split
  · exact hb
  · assumption

theorem effSubject_ne_empty (content : List (String × String)) : effSubject content ≠ "" :=
  orStr_ne_empty _ _ (by decide)

theorem effBody_ne_empty (content : List (String × String)) : effBody content ≠ "" :=
  orStr_ne_empty _ _ (by decide)

/-- A send oracle that accepts every attempt. -/
def sendAllOk : Nat → SendResult :=
  fun _ => { success := true, message_id := "sg-1", status_code := 202, error := none }

/-- On a non-empty recipient list the content guard is dead code (the
subject/body fallbacks are never empty), so `send_batch` is the send loop
started on the initial counters. -/
theorem send_batch_eq_sendLoop (oracle : Nat → SendResult) (recipients : List Recipient)
    (content : List (String × String)) (h : recipients ≠ []) :
    send_batch oracle recipients content = sendLoop oracle 0 recipients
      { total := recipients.length, sent := 0, failed := 0, message_ids := [], errors := [],
        per_recipient := [] } := by
  unfold send_batch
  rw [if_neg (by simpa [List.isEmpty_iff] using h),
    if_neg (not_or.mpr ⟨effSubject_ne_empty content, effBody_ne_empty content⟩)]

theorem send_batch_total (oracle : Nat → SendResult) (recipients : List Recipient)
    (content : List (String × String)) :
    (send_batch oracle recipients content).total = recipients.length := by
  rcases List.eq_nil_or_concat recipients with rfl | -
  · rfl
  · by_cases h : recipients = []
    · subst h; rfl
    · rw [send_batch_eq_sendLoop oracle recipients content h, sendLoop_total]

theorem send_batch_sent_failed (oracle : Nat → SendResult) (recipients : List Recipient)
    (content : List (String × String)) :
    (send_batch oracle recipients content).sent + (send_batch oracle recipients content).failed
      = (send_batch oracle recipients content).total := by
  by_cases h : recipients = []
  · subst h; rfl
  · rw [send_batch_eq_sendLoop oracle recipients content h, sendLoop_total,
      sendLoop_sent_failed]
    simp

/-- The per-recipient outcome list of a batch lists exactly the recipients
with a non-empty email, in input order. -/
theorem send_batch_per_emails (oracle : Nat → SendResult) (recipients : List Recipient)
    (content : List (String × String)) :
    (send_batch oracle recipients content).per_recipient.map PerRecipientOutcome.email
      = (recipients.filter (fun r => ¬ r.email = "")).map Recipient.email := by
  by_cases h : recipients = []
  · subst h; rfl
  · rw [send_batch_eq_sendLoop oracle recipients content h, sendLoop_per_emails]
    simp

/-- C10: `send_batch` always satisfies `sent + failed = total =
len(recipients)`; the per-recipient outcome list has exactly one entry per
recipient *with a non-empty email* (in input order), so a recipient whose
dict lacks an email is counted as failed, never attempted, gets no
`per_recipient` entry, and `per_recipient` can be shorter than `total`
(shown at a concrete input). -/
theorem send_batch_accounting (oracle : Nat → SendResult) (recipients : List Recipient)
    (content : List (String × String)) :
    (send_batch oracle recipients content).total = recipients.length ∧
    (send_batch oracle recipients content).sent + (send_batch oracle recipients content).failed
      = (send_batch oracle recipients content).total ∧
    (send_batch oracle recipients content).per_recipient.map PerRecipientOutcome.email
      = (recipients.filter (fun r => ¬ r.email = "")).map Recipient.email ∧
    (send_batch sendAllOk [{ email := "", name := "" }] []).per_recipient.length
      < (send_batch sendAllOk [{ email := "", name := "" }] []).total := by
  refine ⟨send_batch_total oracle recipients content,
    send_batch_sent_failed oracle recipients content,
    send_batch_per_emails oracle recipients content, ?_⟩
  rw [send_batch_eq_sendLoop sendAllOk [{ email := "", name := "" }] [] (by decide)]
  decide

/-- C6 counterexample: a group of two recipients, one of whom has no email
address, yields only one per-recipient outcome entry — not "exactly one
entry per recipient in the group" — because the email-less recipient is
skipped without being attempted. -/
theorem send_batch_skips_missing_email_outcome :
    (send_batch sendAllOk [{ email := "a@x.com", name := "A" }, { email := "", name := "B" }]
      [("subject", "S"), ("body", "B")]).per_recipient.length = 1 ∧
    ([{ email := "a@x.com", name := "A" }, { email := "", name := "B" }] : List Recipient).length
      = 2 := by
  constructor
  · rw [send_batch_eq_sendLoop sendAllOk
      [{ email := "a@x.com", name := "A" }, { email := "", name := "B" }]
      [("subject", "S"), ("body", "B")] (by decide)]
    decide
  · rfl

/-- Ten distinct recipients for the partial-failure example. -/
def tenRecipients : List Recipient :=
  [{ email := "u0@x.com", name := "U" }, { email := "u1@x.com", name := "U" },
   { email := "u2@x.com", name := "U" }, { email := "u3@x.com", name := "U" },
   { email := "u4@x.com", name := "U" }, { email := "u5@x.com", name := "U" },
   { email := "u6@x.com", name := "U" }, { email := "u7@x.com", name := "U" },
   { email := "u8@x.com", name := "U" }, { email := "u9@x.com", name := "U" }]

/-- A send oracle that fails exactly the fifth attempt (index 4). -/
def failAt5 : Nat → SendResult :=
  fun i => if i = 4 then
      { success := false, message_id := "", status_code := 500,
        error := some "SendGrid returned status 500" }
    else { success := true, message_id := "sg-1", status_code := 202, error := none }

/-- C6 amended: one failing recipient does not stop the batch — every
recipient *with a non-empty email address* is attempted exactly once and
receives exactly one per-recipient outcome entry, in order (recipients with
a missing/empty email are counted as failed and skipped with no entry);
with 10 recipients where recipient #5 fails, there are 10 entries, 9 of
them marked success. -/
theorem send_batch_attempts_all_emailed_recipients (oracle : Nat → SendResult)
    (recipients : List Recipient) (content : List (String × String)) :
    ((send_batch oracle recipients content).per_recipient.map PerRecipientOutcome.email
      = (recipients.filter (fun r => ¬ r.email = "")).map Recipient.email) ∧
    ((send_batch failAt5 tenRecipients [("subject", "S"), ("body", "B")]).per_recipient.length
        = 10 ∧
      ((send_batch failAt5 tenRecipients [("subject", "S"), ("body", "B")]).per_recipient.filter
        (fun o => o.success)).length = 9) := by
  have hc : send_batch failAt5 tenRecipients [("subject", "S"), ("body", "B")]
      = sendLoop failAt5 0 tenRecipients
        { total := tenRecipients.length, sent := 0, failed := 0, message_ids := [], errors := [],
          per_recipient := [] } :=
    send_batch_eq_sendLoop failAt5 tenRecipients [("subject", "S"), ("body", "B")] (by decide)
  refine ⟨send_batch_per_emails oracle recipients content, ?_, ?_⟩ <;>
    rw [hc] <;> decide

/-! ## C3 — pipeline failures do not stop the run -/

theorem genContents_ok (cf : List (String × String) → Recipient → String → String →
      List (String × String))
    (strategy : List (String × String)) (sample : Recipient) (cid : String) :
    ∀ gl : List (String × List Recipient),
      genContents (fun a b c d => .ok (cf a b c d)) strategy sample cid gl
        = .ok (gl.map (fun p => (p.1, cf strategy sample p.1 cid))) := by
  intro gl
  induction gl with
  | nil => rfl
  | cons p t ih =>
    obtain ⟨v, g⟩ := p
    simp only [genContents, ih, List.map_cons]
    rfl

theorem runChecks_ok (df : List (String × String) → List Recipient → Bool)
    (groups : List (String × List Recipient)) :
    ∀ evl : List (String × List (String × String)),
      runChecks (fun a b => .ok (df a b)) groups evl
        = .ok (evl.map (fun p => (p.1, df p.2 (dgetD groups p.1 [])))) := by
  intro evl
  induction evl with
  | nil => rfl
  | cons p t ih =>
    obtain ⟨v, c⟩ := p
    simp only [runChecks, ih, List.map_cons]
    rfl

/-- Concrete collaborator fixtures for the pipeline examples. -/
def rR : Recipient := { email := "r@x.com", name := "R" }

def rQ : Recipient := { email := "q@x.com", name := "Q" }

def segTwo : SegResult := { data := [("seg", "ok")], selected_segment := [rR, rQ] }

def segOne : SegResult := { data := [("seg", "ok")], selected_segment := [rR] }

/-- C3 counterexample: with a failing Strategy stage and succeeding later
collaborators, `run_campaign` still executes segmentation, content
generation, A/B assignment and the deliverability check (their outputs
appear in the final state), and the final status is stamped
`"ready_to_send"`, not a terminal failure — the workflow edges are
unconditional and the run does not return at the failed stage. -/
theorem run_campaign_runs_later_stages_after_failure :
    (run_campaign (fun _ => .error "boom")
      (fun _ _ _ => .ok segTwo)
      id (fun _ _ v _ => .ok [("subject", "S" ++ v), ("body", "B")]) (fun _ _ => .ok true)
      "c2" "brief" "f.csv").error = "Strategy creation failed: boom" ∧
    (run_campaign (fun _ => .error "boom")
      (fun _ _ _ => .ok segTwo)
      id (fun _ _ v _ => .ok [("subject", "S" ++ v), ("body", "B")]) (fun _ _ => .ok true)
      "c2" "brief" "f.csv").status = "ready_to_send" ∧
    (run_campaign (fun _ => .error "boom")
      (fun _ _ _ => .ok segTwo)
      id (fun _ _ v _ => .ok [("subject", "S" ++ v), ("body", "B")]) (fun _ _ => .ok true)
      "c2" "brief" "f.csv").segments = [("seg", "ok")] ∧
    (run_campaign (fun _ => .error "boom")
      (fun _ _ _ => .ok segTwo)
      id (fun _ _ v _ => .ok [("subject", "S" ++ v), ("body", "B")]) (fun _ _ => .ok true)
      "c2" "brief" "f.csv").deliverability_check = [("A", true), ("B", true)] := by
  refine ⟨rfl, rfl, rfl, rfl⟩

set_option maxHeartbeats 1000000 in
/-- C3 amended: a stage failure records the error in `state["error"]` and
sets `status = "error"` at that node, but the workflow edges are
unconditional, so every later stage still executes (and every earlier
stage's outputs are preserved, except that `selected_recipients` is
reordered in place by the A/B shuffle, ending as
`shuffleFn seg.selected_segment`); `run_campaign` finally overwrites the
status with `"ready_to_send"` regardless.  Shown for a Strategy-stage
failure (later stages all run) and for a Deliverability-stage failure
(earlier successful stages' fields preserved). -/
theorem run_campaign_error_recorded_pipeline_continues :
    (∀ (strategyFn : String → Except String (List (String × String)))
       (segmentFn : String → List (String × String) → String → Except String SegResult)
       (shuffleFn : List Recipient → List Recipient)
       (cf : List (String × String) → Recipient → String → String → List (String × String))
       (df : List (String × String) → List Recipient → Bool)
       (cid brief csv e : String) (seg : SegResult),
      strategyFn brief = .error e →
      segmentFn csv [] brief = .ok seg →
      (run_campaign strategyFn segmentFn shuffleFn
        (fun st sm v c => .ok (cf st sm v c)) (fun c g => .ok (df c g)) cid brief csv).error
          = "Strategy creation failed: " ++ e ∧
      (run_campaign strategyFn segmentFn shuffleFn
        (fun st sm v c => .ok (cf st sm v c)) (fun c g => .ok (df c g)) cid brief csv).status
          = "ready_to_send" ∧
      (run_campaign strategyFn segmentFn shuffleFn
        (fun st sm v c => .ok (cf st sm v c)) (fun c g => .ok (df c g)) cid brief csv).segments
          = seg.data ∧
      (run_campaign strategyFn segmentFn shuffleFn
        (fun st sm v c => .ok (cf st sm v c)) (fun c g => .ok (df c g)) cid brief
          csv).selected_recipients = shuffleFn seg.selected_segment ∧
      (run_campaign strategyFn segmentFn shuffleFn
        (fun st sm v c => .ok (cf st sm v c)) (fun c g => .ok (df c g)) cid brief
          csv).ab_test_groups = create_test_groups_run (shuffleFn seg.selected_segment) 2) ∧
    (∀ (strategyFn : String → Except String (List (String × String)))
       (segmentFn : String → List (String × String) → String → Except String SegResult)
       (shuffleFn : List Recipient → List Recipient)
       (cf : List (String × String) → Recipient → String → String → List (String × String))
       (cid brief csv e2 : String) (st : List (String × String)) (seg : SegResult),
      strategyFn brief = .ok st →
      segmentFn csv st brief = .ok seg →
      (run_campaign strategyFn segmentFn shuffleFn
        (fun a b v c => .ok (cf a b v c)) (fun _ _ => .error e2) cid brief csv).error
          = "Deliverability check failed: " ++ e2 ∧
      (run_campaign strategyFn segmentFn shuffleFn
        (fun a b v c => .ok (cf a b v c)) (fun _ _ => .error e2) cid brief csv).strategy = st ∧
      (run_campaign strategyFn segmentFn shuffleFn
        (fun a b v c => .ok (cf a b v c)) (fun _ _ => .error e2) cid brief csv).segments
          = seg.data ∧
      (run_campaign strategyFn segmentFn shuffleFn
        (fun a b v c => .ok (cf a b v c)) (fun _ _ => .error e2) cid brief
          csv).deliverability_check = [] ∧
      (run_campaign strategyFn segmentFn shuffleFn
        (fun a b v c => .ok (cf a b v c)) (fun _ _ => .error e2) cid brief csv).status
          = "ready_to_send") := by
  constructor
  · intro strategyFn segmentFn shuffleFn cf df cid brief csv e seg hstrat hseg
    unfold run_campaign node_create_strategy node_segment_audience node_generate_content
      node_check_deliverability initial_state
    dsimp only
    rw [hstrat]
    dsimp only
    rw [hseg]
    dsimp only
    rw [genContents_ok, runChecks_ok]
    dsimp only
    simp
  · intro strategyFn segmentFn shuffleFn cf cid brief csv e2 st seg hstrat hseg
    unfold run_campaign node_create_strategy node_segment_audience node_generate_content
      node_check_deliverability initial_state
    dsimp only
    rw [hstrat]
    dsimp only
    rw [hseg]
    dsimp only
    rw [genContents_ok]
    dsimp only
    rw [ctg_run_two, List.map_cons, List.map_cons, List.map_nil]
    rw [show ∀ (g : List (String × List Recipient)) v c rest,
        runChecks (fun _ _ => Except.error e2) g ((v, c) :: rest) = .error e2 by
      intro g v c rest
      simp only [runChecks]
      rfl]
    dsimp only
    simp

/-- Witness for `run_campaign_error_recorded_pipeline_continues`: the first
part at concrete collaborators (failing strategy, two-recipient segment). -/
theorem run_campaign_error_recorded_pipeline_continues_witness :
    (run_campaign (fun _ => .error "boom")
      (fun _ _ _ => .ok segOne)
      id (fun st sm v c => .ok ((fun _ _ _ _ => [("subject", "S")]) st sm v c))
      (fun c g => .ok ((fun _ _ => true) c g)) "c9" "brief2" "g.csv").error
        = "Strategy creation failed: boom" ∧
    (run_campaign (fun _ => .error "boom")
      (fun _ _ _ => .ok segOne)
      id (fun st sm v c => .ok ((fun _ _ _ _ => [("subject", "S")]) st sm v c))
      (fun c g => .ok ((fun _ _ => true) c g)) "c9" "brief2" "g.csv").status
        = "ready_to_send" ∧
    (run_campaign (fun _ => .error "boom")
      (fun _ _ _ => .ok segOne)
      id (fun st sm v c => .ok ((fun _ _ _ _ => [("subject", "S")]) st sm v c))
      (fun c g => .ok ((fun _ _ => true) c g)) "c9" "brief2" "g.csv").segments
        = [("seg", "ok")] ∧
    (run_campaign (fun _ => .error "boom")
      (fun _ _ _ => .ok segOne)
      id (fun st sm v c => .ok ((fun _ _ _ _ => [("subject", "S")]) st sm v c))
      (fun c g => .ok ((fun _ _ => true) c g)) "c9" "brief2" "g.csv").selected_recipients
        = [rR] ∧
    (run_campaign (fun _ => .error "boom")
      (fun _ _ _ => .ok segOne)
      id (fun st sm v c => .ok ((fun _ _ _ _ => [("subject", "S")]) st sm v c))
      (fun c g => .ok ((fun _ _ => true) c g)) "c9" "brief2" "g.csv").ab_test_groups
        = create_test_groups_run (id [rR]) 2 := by
  exact run_campaign_error_recorded_pipeline_continues.1 (fun _ => .error "boom")
    (fun _ _ _ => .ok segOne)
    id (fun _ _ _ _ => [("subject", "S")]) (fun _ _ => true) "c9" "brief2" "g.csv" "boom"
    segOne rfl rfl




/-! ## C9 — deliverability is advisory: lemmas and theorem -/

theorem processVariant_send_results (t : List String → TrackMetrics) (s : CampaignStateM)
    (v : String) : (processVariant t s v).send_results = s.send_results := by
  simp only [processVariant]
  split
  · split <;> rfl
  · rfl

theorem foldl_processVariant_send_results (t : List String → TrackMetrics) (l : List String) :
    ∀ s : CampaignStateM, (l.foldl (processVariant t) s).send_results = s.send_results := by
  induction l with
  | nil => intro s; rfl
  | cons v rest ih =>
    intro s
    rw [List.foldl_cons, ih, processVariant_send_results]

theorem process_results_send_results (t : List String → TrackMetrics)
    (r : String → List (String × String) → List (String × MetricsResult) →
      List (String × Bool) → List (String × String)) (s : CampaignStateM) :
    (process_results t r s).send_results = s.send_results := by
  unfold process_results
  dsimp only
  split
  · split <;> exact foldl_processVariant_send_results t _ s
  · exact foldl_processVariant_send_results t _ s

theorem processVariant_dc (t : List String → TrackMetrics) (s : CampaignStateM) (d : List (String × Bool)) (v : String) :
    processVariant t { s with deliverability_check := d } v
      = { processVariant t s v with deliverability_check := d } := by
  simp only [processVariant]
  split
  · split
    · rfl
    · rfl
  · rfl


theorem foldl_processVariant_dc (t : List String → TrackMetrics) (l : List String) :
    ∀ (s : CampaignStateM) (d : List (String × Bool)),
      l.foldl (processVariant t) { s with deliverability_check := d }
        = { l.foldl (processVariant t) s with deliverability_check := d } := by
  induction l with
  | nil => intro s d; rfl
  | cons v rest ih =>
    intro s d
    rw [List.foldl_cons, List.foldl_cons, processVariant_dc, ih]

theorem process_results_dc (t : List String → TrackMetrics)
    (r : String → List (String × String) → List (String × MetricsResult) →
      List (String × Bool) → List (String × String))
    (s : CampaignStateM) (d : List (String × Bool)) :
    ∃ rep, process_results t r { s with deliverability_check := d }
      = { process_results t r s with deliverability_check := d, campaign_report := rep } := by
  simp only [process_results]
  rw [show dkeys ({ s with deliverability_check := d } : CampaignStateM).ab_test_groups
      = dkeys s.ab_test_groups from rfl]
  rw [foldl_processVariant_dc]
  dsimp only
  refine ⟨r (List.foldl (processVariant t) s (dkeys s.ab_test_groups)).campaign_id
    (List.foldl (processVariant t) s (dkeys s.ab_test_groups)).strategy
    (calculate_metrics (List.foldl (processVariant t) s (dkeys s.ab_test_groups)).test_results)
    d, ?_⟩
  split <;> (try split) <;> rfl


theorem process_results_dc' (t : List String → TrackMetrics)
    (r : String → List (String × String) → List (String × MetricsResult) →
      List (String × Bool) → List (String × String))
    (s1 s2 : CampaignStateM) (d : List (String × Bool))
    (h : s1 = { s2 with deliverability_check := d }) :
    ∃ rep, process_results t r s1
      = { process_results t r s2 with deliverability_check := d, campaign_report := rep } := by
  subst h
  exact process_results_dc t r s2 d

theorem process_results_dc_proj (t : List String → TrackMetrics)
    (r : String → List (String × String) → List (String × MetricsResult) →
      List (String × Bool) → List (String × String))
    (s : CampaignStateM) (d : List (String × Bool)) :
    (process_results t r { s with deliverability_check := d }).send_results
        = (process_results t r s).send_results ∧
    (process_results t r { s with deliverability_check := d }).sendgrid_message_ids
        = (process_results t r s).sendgrid_message_ids ∧
    (process_results t r { s with deliverability_check := d }).test_results
        = (process_results t r s).test_results ∧
    (process_results t r { s with deliverability_check := d }).variant_sent
        = (process_results t r s).variant_sent ∧
    (process_results t r { s with deliverability_check := d }).status
        = (process_results t r s).status ∧
    (process_results t r { s with deliverability_check := d }).error
        = (process_results t r s).error ∧
    (process_results t r { s with deliverability_check := d }).sendgrid_metrics
        = (process_results t r s).sendgrid_metrics ∧
    (process_results t r { s with deliverability_check := d }).ab_results
        = (process_results t r s).ab_results := by
  obtain ⟨rep, h⟩ := process_results_dc t r s d
  rw [h]
  exact ⟨rfl, rfl, rfl, rfl, rfl, rfl, rfl, rfl⟩


theorem dispatchCore_dc (o : Nat → SendResult) (t : List String → TrackMetrics)
    (s : CampaignStateM) (d : List (String × Bool)) (v : String)
    (recipients : List Recipient) (content : List (String × String)) :
    dispatchCore o t { s with deliverability_check := d } v recipients content
      = { dispatchCore o t s v recipients content with deliverability_check := d } := by
  simp only [dispatchCore]
  repeat' split
  all_goals rfl

set_option maxHeartbeats 1000000 in
/-- C9: the deliverability check result is advisory only — two campaign
states that differ only in `deliverability_check` (e.g. one where every
variant failed the check) produce via `send_variant` the same batch send
(same attempts, same per-recipient outcomes in `send_results`), the same
recorded message ids, metrics, counters, sent-flags, status and error:
the dispatch path never reads the check result. -/
theorem send_variant_ignores_deliverability (o : Nat → SendResult)
    (t : List String → TrackMetrics)
    (r : String → List (String × String) → List (String × MetricsResult) →
      List (String × Bool) → List (String × String))
    (s : CampaignStateM) (d : List (String × Bool)) (v : String) :
    (send_variant o t r { s with deliverability_check := d } v).send_results
        = (send_variant o t r s v).send_results ∧
    (send_variant o t r { s with deliverability_check := d } v).sendgrid_message_ids
        = (send_variant o t r s v).sendgrid_message_ids ∧
    (send_variant o t r { s with deliverability_check := d } v).test_results
        = (send_variant o t r s v).test_results ∧
    (send_variant o t r { s with deliverability_check := d } v).variant_sent
        = (send_variant o t r s v).variant_sent ∧
    (send_variant o t r { s with deliverability_check := d } v).status
        = (send_variant o t r s v).status ∧
    (send_variant o t r { s with deliverability_check := d } v).error
        = (send_variant o t r s v).error ∧
    (send_variant o t r { s with deliverability_check := d } v).sendgrid_metrics
        = (send_variant o t r s v).sendgrid_metrics ∧
    (send_variant o t r { s with deliverability_check := d } v).ab_results
        = (send_variant o t r s v).ab_results := by
  simp only [send_variant]
  dsimp only
  rw [dispatchCore_dc]
  dsimp only
  refine ⟨?_, ?_, ?_, ?_, ?_, ?_, ?_, ?_⟩ <;>
    (repeat' split) <;>
    first
      | rfl
      | exact (process_results_dc_proj t r _ d).1
      | exact (process_results_dc_proj t r _ d).2.1
      | exact (process_results_dc_proj t r _ d).2.2.1
      | exact (process_results_dc_proj t r _ d).2.2.2.1
      | exact (process_results_dc_proj t r _ d).2.2.2.2.1
      | exact (process_results_dc_proj t r _ d).2.2.2.2.2.1
      | exact (process_results_dc_proj t r _ d).2.2.2.2.2.2.1
      | exact (process_results_dc_proj t r _ d).2.2.2.2.2.2.2




/-! ## C1 — dispatch is not idempotent -/

theorem dispatchCore_send_results (o : Nat → SendResult) (t : List String → TrackMetrics)
    (s : CampaignStateM) (v : String) (recipients : List Recipient)
    (content : List (String × String)) :
    (dispatchCore o t s v recipients content).send_results
      = dset s.send_results v (send_batch o recipients content) := by
  simp only [dispatchCore]
  repeat' split
  all_goals rfl

/-- C1 amended: `send_variant` performs no idempotency check — for any
state in which the label's dispatch record is already marked sent
(`v ∈ variant_sent`), re-invoking it re-runs the whole batch send for the
label's group and overwrites the label's send record with the fresh batch
result (so the send capability is invoked once more per recipient, not
zero additional times). -/
theorem send_variant_no_idempotency_guard (o : Nat → SendResult)
    (t : List String → TrackMetrics)
    (r : String → List (String × String) → List (String × MetricsResult) →
      List (String × Bool) → List (String × String))
    (s : CampaignStateM) (v : String) (recips : List Recipient)
    (content : List (String × String))
    (hsent : v ∈ s.variant_sent)
    (hg : dget s.ab_test_groups v = some recips) (hrne : recips ≠ [])
    (hc : dget s.email_variants v = some content) (hcne : content ≠ []) :
    dget (send_variant o t r s v).send_results v = some (send_batch o recips content) := by
  simp only [send_variant]
  rw [if_neg (by simp [hg, hc])]
  simp only [dgetD, hg, hc, Option.getD_some]
  rw [if_neg hrne, if_neg hcne]
  split
  · rw [process_results_send_results, dispatchCore_send_results, dget_dset, if_pos rfl]
  · rw [dispatchCore_send_results, dget_dset, if_pos rfl]

/-- Tracker oracle returning zero engagement counts. -/
def trackerZero : List String → TrackMetrics :=
  fun _ => { delivered := 1, opened := 0, clicked := 0, bounced := 0 }

/-- Opaque constant report collaborator. -/
def reportConst : String → List (String × String) → List (String × MetricsResult) →
    List (String × Bool) → List (String × String) :=
  fun _ _ _ _ => [("report", "ok")]

/-- A campaign paused before dispatch: two groups A and B with content. -/
def dispatchState0 : CampaignStateM :=
  { initial_state "c1" "brief" "aud.csv" with
    ab_test_groups := [("A", [rR]), ("B", [rQ])]
    email_variants := [("A", [("subject", "S"), ("body", "B")]),
                       ("B", [("subject", "S2"), ("body", "B2")])]
    deliverability_check := [("A", false), ("B", true)] }

/-- The batch result of sending group A with the all-accepting oracle. -/
def srA : BatchResults :=
  { total := 1, sent := 1, failed := 0, message_ids := [("r@x.com", "sg-1")], errors := []
    per_recipient := [{ email := "r@x.com", success := true, message_id := "sg-1"
                        status_code := 202, error := none }] }

/-- The state after the first `send_variant` call for label A: the
dispatch record for A is marked sent (`variant_sent = ["A"]`,
`send_results["A"]` recorded, `test_results["A"].sent = 1`). -/
def dispatchState1 : CampaignStateM :=
  { dispatchState0 with
    status := "variant_A_sent"
    send_results := [("A", srA)]
    sendgrid_message_ids := [("A", ["sg-1"])]
    variant_sent := ["A"]
    sendgrid_metrics := [("A", { delivered := 1, opened := 0, clicked := 0, bounced := 0 })]
    test_results := [("A", { metrics := [], sent := 1, opened := 0, clicked := 0,
                             converted := 0 })] }

/-- The state after re-invoking `send_variant` for the already-sent label
A: the batch was sent again (`test_results["A"].sent = 2`). -/
def dispatchState2 : CampaignStateM :=
  { dispatchState1 with
    test_results := [("A", { metrics := [], sent := 2, opened := 0, clicked := 0,
                             converted := 0 })] }

theorem send_batch_groupA :
    send_batch sendAllOk (dgetD dispatchState0.ab_test_groups "A" [])
      (dgetD dispatchState0.email_variants "A" []) = srA := by
  rw [send_batch_eq_sendLoop _ _ _ (by decide)]
  decide

theorem send_batch_groupA1 :
    send_batch sendAllOk (dgetD dispatchState1.ab_test_groups "A" [])
      (dgetD dispatchState1.email_variants "A" []) = srA := by
  rw [send_batch_eq_sendLoop _ _ _ (by decide)]
  decide

theorem send_variant_first_call :
    send_variant sendAllOk trackerZero reportConst dispatchState0 "A" = dispatchState1 := by
  simp only [send_variant, dispatchCore]
  rw [if_neg (by decide), if_neg (by decide), if_neg (by decide)]
  rw [send_batch_groupA]
  decide

theorem send_variant_second_call :
    send_variant sendAllOk trackerZero reportConst dispatchState1 "A" = dispatchState2 := by
  simp only [send_variant, dispatchCore]
  rw [if_neg (by decide), if_neg (by decide), if_neg (by decide)]
  rw [send_batch_groupA1]
  decide

/-- C1 counterexample: after a first dispatch of label A the state
`dispatchState1` has `sent = true` for A (one send attempt recorded, sent
counter 1); re-invoking `send_variant` for A does *not* return the state
unchanged — it re-sends to A's recipient, recording one more send attempt
(sent counter 2, a fresh one-entry per-recipient outcome list), i.e. the
EmailDispatcher is invoked twice in total for that label, not once. -/
theorem send_variant_second_call_resends :
    send_variant sendAllOk trackerZero reportConst dispatchState0 "A" = dispatchState1 ∧
    "A" ∈ dispatchState1.variant_sent ∧
    (dget dispatchState1.test_results "A").map VariantData.sent = some 1 ∧
    (dget dispatchState1.send_results "A").map (fun b => b.per_recipient.length) = some 1 ∧
    send_variant sendAllOk trackerZero reportConst dispatchState1 "A" ≠ dispatchState1 ∧
    (dget (send_variant sendAllOk trackerZero reportConst dispatchState1 "A").test_results
      "A").map VariantData.sent = some 2 ∧
    (dget (send_variant sendAllOk trackerZero reportConst dispatchState1 "A").send_results
      "A").map (fun b => b.per_recipient.length) = some 1 := by
  refine ⟨send_variant_first_call, by decide, by decide, by decide, ?_, ?_, ?_⟩
  · rw [send_variant_second_call]
    decide
  · rw [send_variant_second_call]
    decide
  · rw [send_variant_second_call]
    decide

/-- Witness for `send_variant_no_idempotency_guard` at the concrete
already-sent state. -/
theorem send_variant_no_idempotency_guard_witness :
    dget (send_variant sendAllOk trackerZero reportConst dispatchState1 "A").send_results "A"
      = some (send_batch sendAllOk [rR] [("subject", "S"), ("body", "B")]) := by
  exact send_variant_no_idempotency_guard sendAllOk trackerZero reportConst dispatchState1 "A"
    [rR] [("subject", "S"), ("body", "B")] (by decide) rfl (by decide) rfl (by decide)

end Campaign
